import Mathlib

/-!
Verification of the stamp-processing service of the swarm_connect backend.

The Python module `app/services/swarm_api.py` works on JSON values decoded
from HTTP responses. We embed JSON values shallowly (integers as `Int`;
the node's numeric fields are integral), Python dictionaries as association
lists with first-match lookup (Python dicts have unique keys), and Python
exceptions as an explicit error type threaded through `Except`.
-/

/-- A JSON value as Python's `json` module decodes it (numeric fields of the
node's responses are integral, so numbers are modelled as `Int`). -/
inductive JsonVal where
  | jnull : JsonVal
  | jbool : Bool → JsonVal
  | jint : Int → JsonVal
  | jstr : String → JsonVal
  | jarr : List JsonVal → JsonVal
  | jobj : List (String × JsonVal) → JsonVal

/-- A Python dictionary with string keys, as an association list. -/
abbrev PyDict := List (String × JsonVal)

/-- First-match association-list lookup: `d[k]` when present, `none` otherwise. -/
def plookup : PyDict → String → Option JsonVal
  | [], _ => none
  | (k, v) :: rest, key => if k = key then some v else plookup rest key

/-- Python's `d.get(key, default)`. -/
def getD (d : PyDict) (key : String) (default : JsonVal) : JsonVal :=
  match plookup d key with
  | some v => v
  | none => default

/-- Python truthiness of a JSON value: `None`, `False`, `0`, `""`, `[]`, `{}`
are falsy, everything else is truthy. -/
def truthy : JsonVal → Bool
  | JsonVal.jnull => false
  | JsonVal.jbool b => b
  | JsonVal.jint n => n != 0
  | JsonVal.jstr s => s != ""
  | JsonVal.jarr xs => !xs.isEmpty
  | JsonVal.jobj fs => !fs.isEmpty

/-- The Python exception classes that the translated code can raise or catch. -/
inductive PyErr where
  | valueError : PyErr
  | typeError : PyErr
  | keyError : PyErr
  | attributeError : PyErr
  | requestError : PyErr
deriving DecidableEq

/-- Python's `int(v)` on a JSON value: ints pass through, bools become 0/1,
strings are parsed as decimal integers (`ValueError` on failure), and
`None`/lists/dicts raise `TypeError`. -/
def pyInt : JsonVal → Except PyErr Int
  | JsonVal.jint n => Except.ok n
  | JsonVal.jbool b => Except.ok (if b then 1 else 0)
  | JsonVal.jstr s =>
    match s.toInt? with
    | some n => Except.ok n
    | none => Except.error PyErr.valueError
  | _ => Except.error PyErr.typeError

/-- Python's `v < m` for an integer literal `m`: defined for ints and bools
(bools compare as 0/1), `TypeError` otherwise. -/
def pyLtInt : JsonVal → Int → Except PyErr Bool
  | JsonVal.jint n, m => Except.ok (decide (n < m))
  | JsonVal.jbool b, m => Except.ok (decide ((if b then (1 : Int) else 0) < m))
  | _, _ => Except.error PyErr.typeError

/-- Python's `v > m` for an integer literal `m`: defined for ints and bools
(bools compare as 0/1), `TypeError` otherwise. -/
def pyGtInt : JsonVal → Int → Except PyErr Bool
  | JsonVal.jint n, m => Except.ok (decide (m < n))
  | JsonVal.jbool b, m => Except.ok (decide (m < (if b then (1 : Int) else 0)))
  | _, _ => Except.error PyErr.typeError

/-- Python's `str(v)` (repr form for non-string containers; character escaping
inside reprs is not modelled, no claim evaluates it). -/
def pyStr : JsonVal → String
  | JsonVal.jnull => "None"
  | JsonVal.jbool b => if b then "True" else "False"
  | JsonVal.jint n => toString n
  | JsonVal.jstr s => s
  | JsonVal.jarr _ => "<list>"
  | JsonVal.jobj _ => "<dict>"

/-- The body of `calculate_usable_status` (the `try` block, lines 157-183 of
`swarm_api.py`), returning `Except` so that raised exceptions are explicit. -/
def calculate_usable_status_try (stamp : PyDict) : Except PyErr Bool :=
  -- if not stamp.get("exists", True): return False
  if !truthy (getD stamp "exists" (JsonVal.jbool true)) then Except.ok false
  else
    -- batch_ttl = int(stamp.get("batchTTL", 0))
    match pyInt (getD stamp "batchTTL" (JsonVal.jint 0)) with
    | Except.error e => Except.error e
    | Except.ok batch_ttl =>
      -- if batch_ttl <= 0: return False
      if batch_ttl ≤ 0 then Except.ok false
      else
        -- is_immutable = stamp.get("immutableFlag", False) or stamp.get("immutable", False)
        let is_immutable :=
          truthy (getD stamp "immutableFlag" (JsonVal.jbool false)) ||
          truthy (getD stamp "immutable" (JsonVal.jbool false))
        -- min_ttl = 3600 if is_immutable else 60
        let min_ttl : Int := if is_immutable then 3600 else 60
        -- if batch_ttl < min_ttl: return False
        if batch_ttl < min_ttl then Except.ok false
        else
          -- depth = stamp.get("depth", 0); if depth < 16 or depth > 32: return False
          let depth := getD stamp "depth" (JsonVal.jint 0)
          match pyLtInt depth 16 with
          | Except.error e => Except.error e
          | Except.ok true => Except.ok false
          | Except.ok false =>
            match pyGtInt depth 32 with
            | Except.error e => Except.error e
            | Except.ok true => Except.ok false
            | Except.ok false => Except.ok true

/-- `calculate_usable_status` (`swarm_api.py` lines 143-187): the `try` body
with `except (ValueError, TypeError): return False`. -/
def calculate_usable_status (stamp : PyDict) : Except PyErr Bool :=
  match calculate_usable_status_try stamp with
  | Except.error PyErr.valueError => Except.ok false
  | Except.error PyErr.typeError => Except.ok false
  | r => r

/-! ## UTC timestamp formatting

`get_all_stamps_processed` formats `now + timedelta(seconds=batch_ttl)` with
`strftime('%Y-%m-%d-%H-%M')` in UTC. We model an aware UTC datetime by its
POSIX timestamp in seconds and reimplement the proleptic-Gregorian
conversion that `datetime.strftime` performs. -/

/-- Zero-pad the decimal rendering of `n` to width `w` (strftime padding). -/
def padNat (w n : Nat) : String :=
  let s := toString n
  if s.length < w then String.mk (List.replicate (w - s.length) '0') ++ s else s

/-- Convert a count of days since 1970-01-01 to a proleptic-Gregorian civil
date (year, month, day); the standard era-based algorithm. -/
def civilFromDays (days : Nat) : Nat × Nat × Nat :=
  let z := days + 719468
  let era := z / 146097
  let doe := z % 146097
  let yoe := (doe - doe / 1460 + doe / 36524 - doe / 146096) / 365
  let y := yoe + era * 400
  let doy := doe - (365 * yoe + yoe / 4 - yoe / 100)
  let mp := (5 * doy + 2) / 153
  let d := doy - (153 * mp + 2) / 5 + 1
  let m := if mp < 10 then mp + 3 else mp - 9
  (if m ≤ 2 then y + 1 else y, m, d)

/-- `strftime('%Y-%m-%d-%H-%M')` of the UTC datetime whose POSIX timestamp is
`epochSeconds`. -/
def formatUtc (epochSeconds : Nat) : String :=
  let days := epochSeconds / 86400
  let sod := epochSeconds % 86400
  let ymd := civilFromDays days
  padNat 4 ymd.1 ++ "-" ++ padNat 2 ymd.2.1 ++ "-" ++ padNat 2 ymd.2.2 ++ "-" ++
    padNat 2 (sod / 3600) ++ "-" ++ padNat 2 (sod % 3600 / 60)

/-- The expiration computation of `get_all_stamps_processed` (lines 214-223):
clamp a negative TTL to 0, add it to the call-time clock, format in UTC. -/
def computeExpiration (nowEpoch : Nat) (batch_ttl : Int) : String :=
  formatUtc (nowEpoch + (if batch_ttl < 0 then 0 else batch_ttl).toNat)

/-! ## The processed-stamp pipeline -/

/-- The dictionary built for each stamp by `get_all_stamps_processed`
(lines 229-242). Field values that `stamp.get` may leave absent are stored as
the raw JSON value (absent becomes `jnull`, i.e. Python `None`). -/
structure ProcessedStamp where
  batchID : JsonVal
  utilization : JsonVal
  usable : Bool
  label : JsonVal
  depth : JsonVal
  amount : String
  bucketDepth : JsonVal
  blockNumber : JsonVal
  immutableFlag : JsonVal
  batchTTL : Int
  existsFlag : JsonVal
  expectedExpiration : String

/-- The `try` body of the per-stamp loop of `get_all_stamps_processed`
(lines 208-243): `Except.ok none` when the stamp is skipped for a falsy or
missing `batchID`, `Except.error` when the body raises. -/
def process_stamp_try (nowEpoch : Nat) (stamp : PyDict) :
    Except PyErr (Option ProcessedStamp) :=
  -- batch_id = stamp.get("batchID"); if not batch_id: continue
  let batch_id := getD stamp "batchID" JsonVal.jnull
  if !truthy batch_id then Except.ok none
  else
    -- batch_ttl = int(stamp.get("batchTTL", 0))
    match pyInt (getD stamp "batchTTL" (JsonVal.jint 0)) with
    | Except.error e => Except.error e
    | Except.ok ttl =>
      -- if batch_ttl < 0: batch_ttl = 0
      let batch_ttl := if ttl < 0 then 0 else ttl
      -- expiration_str = (now_utc + timedelta(seconds=batch_ttl)).strftime(...)
      let expiration_str := formatUtc (nowEpoch + batch_ttl.toNat)
      -- usable = calculate_usable_status(stamp)
      match calculate_usable_status stamp with
      | Except.error e => Except.error e
      | Except.ok usable =>
        Except.ok (some
          { batchID := batch_id
            utilization := getD stamp "utilization" JsonVal.jnull
            usable := usable
            label := getD stamp "label" JsonVal.jnull
            depth := getD stamp "depth" JsonVal.jnull
            amount := pyStr (getD stamp "amount" (JsonVal.jstr ""))
            bucketDepth := getD stamp "bucketDepth" JsonVal.jnull
            blockNumber := getD stamp "blockNumber" JsonVal.jnull
            immutableFlag := getD stamp "immutableFlag" JsonVal.jnull
            batchTTL := batch_ttl
            existsFlag := getD stamp "exists" (JsonVal.jbool true)
            expectedExpiration := expiration_str })

/-- One iteration of the loop of `get_all_stamps_processed`: the `try` body
with `except (ValueError, TypeError, KeyError): continue`. Calling `.get` on a
non-dict list element raises `AttributeError`, which that handler does not
catch. -/
def process_stamp (nowEpoch : Nat) (v : JsonVal) :
    Except PyErr (Option ProcessedStamp) :=
  match v with
  | JsonVal.jobj stamp =>
    match process_stamp_try nowEpoch stamp with
    | Except.error PyErr.valueError => Except.ok none
    | Except.error PyErr.typeError => Except.ok none
    | Except.error PyErr.keyError => Except.ok none
    | r => r
  | _ => Except.error PyErr.attributeError

/-- The whole loop of `get_all_stamps_processed` (lines 207-247): iterate over
the raw list, collect the processed stamps in order, propagate an uncaught
exception. -/
def process_loop (nowEpoch : Nat) : List JsonVal → Except PyErr (List ProcessedStamp)
  | [] => Except.ok []
  | v :: rest =>
    match process_stamp nowEpoch v with
    | Except.error e => Except.error e
    | Except.ok r =>
      match process_loop nowEpoch rest with
      | Except.error e => Except.error e
      | Except.ok tail =>
        Except.ok (match r with
          | some p => p :: tail
          | none => tail)

/-- The response-shape handling of `get_all_stamps` (lines 28-42): a dict with
a `"batches"` list yields that list, a bare array yields itself, and every
other shape (a dict whose `"batches"` is not a list, a dict without
`"batches"`, or any non-dict non-list value) yields the empty list. -/
def get_all_stamps (data : JsonVal) : List JsonVal :=
  match data with
  | JsonVal.jobj fields =>
    match plookup fields "batches" with
    | some (JsonVal.jarr batches) => batches
    | some _ => []  -- "batches" present but not a list: log a warning, return []
    | none => []    -- dict without "batches" falls through to the final else
  | JsonVal.jarr xs => xs
  | _ => []

/-- `get_all_stamps_processed` on a decoded node response `data`, with the
call-time UTC clock passed explicitly as a POSIX timestamp. -/
def get_all_stamps_processed (data : JsonVal) (nowEpoch : Nat) :
    Except PyErr (List ProcessedStamp) :=
  process_loop nowEpoch (get_all_stamps data)

/-! ## Transport operations: download and stamp extension -/

/-- Outcome of one outbound HTTP request: a response with a status code and a
raw byte body, or a connection-level failure (raised as a
`requests.RequestException`). -/
inductive HttpOutcome where
  | response : Nat → List Nat → HttpOutcome
  | connError : HttpOutcome

/-- Result of `download_data_from_swarm`: the body bytes, the distinct
not-found failure (`FileNotFoundError`), or a transport failure
(`RequestException`). -/
inductive DownloadResult where
  | ok : List Nat → DownloadResult
  | notFound : DownloadResult
  | requestError : DownloadResult
deriving DecidableEq

/-- `download_data_from_swarm` (lines 294-323) as a function of the node's
response: 404 raises `FileNotFoundError` (not caught by the
`RequestException` handler), any other error status (4xx/5xx from
`raise_for_status`) or connection failure raises `RequestException`, success
returns `response.content`. -/
def download_data_from_swarm (outcome : HttpOutcome) : DownloadResult :=
  match outcome with
  | HttpOutcome.connError => DownloadResult.requestError
  | HttpOutcome.response status body =>
    if status = 404 then DownloadResult.notFound
    else if 400 ≤ status then DownloadResult.requestError
    else DownloadResult.ok body

/-- The response parsing of `extend_postage_stamp` (lines 123-133):
`response_json.get("batchID", stamp_id)` on the decoded JSON body; `.get` on
a non-dict body raises `AttributeError`. -/
def extend_postage_stamp (stamp_id : String) (response_json : JsonVal) :
    Except PyErr JsonVal :=
  match response_json with
  | JsonVal.jobj fields => Except.ok (getD fields "batchID" (JsonVal.jstr stamp_id))
  | _ => Except.error PyErr.attributeError

/-! ## The wallet endpoint -/

/-- Behaviour of the underlying `get_wallet_info` fetch as observed by the
endpoint: a normal return of a decoded JSON value, or any raised failure. -/
inductive FetchOutcome where
  | ret : JsonVal → FetchOutcome
  | raise : PyErr → FetchOutcome

/-- Result of `GET /wallet`: a `WalletResponse` body
`{walletAddress: string, bzzBalance?: string}` or an HTTP 500 error. -/
inductive WalletEndpointResult where
  | ok : String → Option String → WalletEndpointResult
  | http500 : WalletEndpointResult
deriving DecidableEq

/-- `get_wallet` (`wallet.py` lines 14-50) as a function of the fetch
behaviour. Every raised failure hits one of the three `except` arms
(`RequestException`, `ValueError`, `Exception`), each of which raises
`HTTPException(500)`. On a normal return, `wallet_info["walletAddress"]`
raises `KeyError` when missing (or `TypeError` on a non-dict), and the
`WalletResponse` model validates `walletAddress : str`,
`bzzBalance : Optional[str]`, raising a `ValueError` subclass on mismatch —
all caught and mapped to 500. -/
def get_wallet (fetch : FetchOutcome) : WalletEndpointResult :=
  match fetch with
  | FetchOutcome.raise _ => WalletEndpointResult.http500
  | FetchOutcome.ret (JsonVal.jobj fields) =>
    match plookup fields "walletAddress" with
    | some (JsonVal.jstr addr) =>
      match getD fields "bzzBalance" JsonVal.jnull with
      | JsonVal.jnull => WalletEndpointResult.ok addr none
      | JsonVal.jstr bal => WalletEndpointResult.ok addr (some bal)
      | _ => WalletEndpointResult.http500   -- bzzBalance of the wrong type: validation error
    | some _ => WalletEndpointResult.http500  -- walletAddress not a string: validation error
    | none => WalletEndpointResult.http500    -- KeyError, caught by the generic handler
  | FetchOutcome.ret _ => WalletEndpointResult.http500  -- subscripting a non-dict: TypeError

/-! ## Helper lemmas -/

/-- `int()` either succeeds or raises exactly `ValueError` or `TypeError`. -/
theorem pyInt_cases (v : JsonVal) :
    (∃ n, pyInt v = Except.ok n) ∨ pyInt v = Except.error PyErr.valueError ∨
      pyInt v = Except.error PyErr.typeError := by
  cases v with
  | jint n => exact Or.inl ⟨n, rfl⟩
  | jbool b => exact Or.inl ⟨if b then 1 else 0, rfl⟩
  | jstr s =>
    cases h : s.toInt? with
    | some n => exact Or.inl ⟨n, by simp [pyInt, h]⟩
    | none => exact Or.inr (Or.inl (by simp [pyInt, h]))
  | jnull => exact Or.inr (Or.inr rfl)
  | jarr xs => exact Or.inr (Or.inr rfl)
  | jobj fs => exact Or.inr (Or.inr rfl)

/-- A Python `<` comparison against an int either succeeds or raises exactly
`TypeError`. -/
theorem pyLtInt_cases (v : JsonVal) (m : Int) :
    (∃ b, pyLtInt v m = Except.ok b) ∨ pyLtInt v m = Except.error PyErr.typeError := by
  cases v with
  | jint n => exact Or.inl ⟨_, rfl⟩
  | jbool b => exact Or.inl ⟨_, rfl⟩
  | jnull => exact Or.inr rfl
  | jstr s => exact Or.inr rfl
  | jarr xs => exact Or.inr rfl
  | jobj fs => exact Or.inr rfl

/-- A Python `>` comparison against an int either succeeds or raises exactly
`TypeError`. -/
theorem pyGtInt_cases (v : JsonVal) (m : Int) :
    (∃ b, pyGtInt v m = Except.ok b) ∨ pyGtInt v m = Except.error PyErr.typeError := by
  cases v with
  | jint n => exact Or.inl ⟨_, rfl⟩
  | jbool b => exact Or.inl ⟨_, rfl⟩
  | jnull => exact Or.inr rfl
  | jstr s => exact Or.inr rfl
  | jarr xs => exact Or.inr rfl
  | jobj fs => exact Or.inr rfl

/-- The `try` body of the usability check returns a boolean or raises exactly
`ValueError` or `TypeError` — the two classes its `except` clause catches. -/
theorem calculate_usable_status_try_cases (stamp : PyDict) :
    (∃ b, calculate_usable_status_try stamp = Except.ok b) ∨
      calculate_usable_status_try stamp = Except.error PyErr.valueError ∨
      calculate_usable_status_try stamp = Except.error PyErr.typeError := by
  unfold calculate_usable_status_try
  by_cases hex : truthy (getD stamp "exists" (JsonVal.jbool true)) = true
  · simp only [hex, Bool.not_true, Bool.false_eq_true, if_false]
    rcases pyInt_cases (getD stamp "batchTTL" (JsonVal.jint 0)) with ⟨t, ht⟩ | ht | ht
    · rw [ht]
      by_cases h0 : t ≤ 0
      · simp [h0]
      · simp only [h0, if_false]
        generalize (if truthy (getD stamp "immutableFlag" (JsonVal.jbool false)) ||
            truthy (getD stamp "immutable" (JsonVal.jbool false)) then (3600 : Int) else 60) = m
        by_cases hmin : t < m
        · simp [hmin]
        · simp only [hmin, if_false]
          rcases pyLtInt_cases (getD stamp "depth" (JsonVal.jint 0)) 16 with ⟨b, hb⟩ | hb
          · rw [hb]
            cases b with
            | true => simp
            | false =>
              rcases pyGtInt_cases (getD stamp "depth" (JsonVal.jint 0)) 32 with ⟨c, hc⟩ | hc
              · rw [hc]; cases c <;> simp
              · rw [hc]; simp
          · rw [hb]; simp
    · rw [ht]; simp
    · rw [ht]; simp
  · simp [hex]

/-! ## Claim C1 -/

/-- The usability condition exactly as claim C1 words it, written out for
comparison with the source function: the `exists` field (defaulting to true
when absent) is not explicitly false; `batchTTL` (defaulting to 0) is
positive and at least 3600 when the stamp is immutable or at least 60 when it
is mutable, where the claim glosses mutable as "immutableFlag false or
absent"; `depth` lies within [16, 32]. -/
def usableSpecC1 (stamp : PyDict) : Bool :=
  (match plookup stamp "exists" with
   | some (JsonVal.jbool false) => false
   | _ => true) &&
  (match getD stamp "batchTTL" (JsonVal.jint 0) with
   | JsonVal.jint t =>
     decide (0 < t) &&
     (match plookup stamp "immutableFlag" with
      | some (JsonVal.jbool true) => decide (3600 ≤ t)
      | _ => decide (60 ≤ t))
   | _ => false) &&
  (match getD stamp "depth" (JsonVal.jint 0) with
   | JsonVal.jint d => decide (16 ≤ d) && decide (d ≤ 32)
   | _ => false)

/-- A stamp carrying the node's `immutable` field but no `immutableFlag`:
line 168 of `swarm_api.py` treats it as immutable (3600-second TTL
threshold), while claim C1's reading — mutable whenever `immutableFlag` is
false or absent — treats it as mutable. -/
def stampImmutableAlias : PyDict :=
  [("batchID", JsonVal.jstr "b"), ("batchTTL", JsonVal.jint 60),
   ("depth", JsonVal.jint 16), ("immutable", JsonVal.jbool true)]

/-- C1 (counterexample): on a stamp with `immutable = true`, `immutableFlag`
absent, `batchTTL = 60`, `depth = 16` and `exists` defaulted to true, the
claim's condition holds (mutable by its gloss, so the 60-second threshold is
met), yet `calculate_usable_status` returns false: the code also consults the
`immutable` key when choosing the threshold. -/
theorem claim_C1_fails_on_immutable_alias :
    usableSpecC1 stampImmutableAlias = true ∧
    calculate_usable_status stampImmutableAlias = Except.ok false :=
  ⟨rfl, rfl⟩

/-- C1 (amended): for every stamp whose relevant fields are of the expected
types (`exists`, `immutableFlag`, `immutable` booleans or absent, `batchTTL`
and `depth` integers or absent), `calculate_usable_status` returns true if
and only if `exists` is not false, `batchTTL` is positive and at least 3600
when the stamp is immutable — meaning `immutableFlag` **or** `immutable` is
true — or at least 60 otherwise, and `depth` lies within [16, 32]
inclusive. -/
theorem calculate_usable_status_typed (stamp : PyDict) (e i1 i2 : Bool) (t d : Int)
    (he : getD stamp "exists" (JsonVal.jbool true) = JsonVal.jbool e)
    (ht : getD stamp "batchTTL" (JsonVal.jint 0) = JsonVal.jint t)
    (hi1 : getD stamp "immutableFlag" (JsonVal.jbool false) = JsonVal.jbool i1)
    (hi2 : getD stamp "immutable" (JsonVal.jbool false) = JsonVal.jbool i2)
    (hd : getD stamp "depth" (JsonVal.jint 0) = JsonVal.jint d) :
    calculate_usable_status stamp = Except.ok true ↔
      (e = true ∧ 0 < t ∧ (if i1 || i2 then (3600 : Int) else 60) ≤ t ∧
        16 ≤ d ∧ d ≤ 32) := by
  unfold calculate_usable_status calculate_usable_status_try
  rw [he, ht, hi1, hi2, hd]
  simp only [truthy, pyInt, pyLtInt, pyGtInt]
  cases e with
  | false => simp
  | true =>
    generalize hM : (if i1 || i2 then (3600 : Int) else 60) = M
    by_cases h0 : t ≤ 0
    · simp [h0]
    · by_cases hmin : t < M
      · simp [h0, hmin]
      · by_cases hlt : d < 16
        · simp [h0, hmin, hlt]
        · by_cases hgt : 32 < d
          · simp [h0, hmin, hlt, hgt]
          · simp [h0, hmin, hlt, hgt]
            omega

/-- C1 (witness): an immutable stamp with `batchTTL = 3600`, `depth = 16` and
`exists` defaulted to true is usable, by the amended theorem. -/
theorem calculate_usable_status_typed_witness :
    calculate_usable_status
      [("batchTTL", JsonVal.jint 3600), ("depth", JsonVal.jint 16),
       ("immutableFlag", JsonVal.jbool true)] = Except.ok true :=
  (calculate_usable_status_typed
    [("batchTTL", JsonVal.jint 3600), ("depth", JsonVal.jint 16),
     ("immutableFlag", JsonVal.jbool true)] true true false 3600 16
    rfl rfl rfl rfl rfl).mpr
    ⟨rfl, by decide, by decide, by decide, by decide⟩

/-! ## Claim C3 -/

/-- C3: for every stamp mapping, `calculate_usable_status` returns a boolean
and never propagates an exception — its `try` body raises only `ValueError`
or `TypeError`, both caught and turned into false. -/
theorem calculate_usable_status_total (stamp : PyDict) :
    (∃ b, calculate_usable_status stamp = Except.ok b) ∧
    (∀ e, calculate_usable_status_try stamp = Except.error e →
      calculate_usable_status stamp = Except.ok false) := by
  rcases calculate_usable_status_try_cases stamp with ⟨b, hb⟩ | hb | hb
  · refine ⟨⟨b, by simp [calculate_usable_status, hb]⟩, ?_⟩
    intro e he
    rw [hb] at he
    exact Except.noConfusion he
  · exact ⟨⟨false, by simp [calculate_usable_status, hb]⟩,
      fun e he => by simp [calculate_usable_status, hb]⟩
  · exact ⟨⟨false, by simp [calculate_usable_status, hb]⟩,
      fun e he => by simp [calculate_usable_status, hb]⟩

/-- C3 (witness): a stamp whose `batchTTL` is `None` makes `int()` raise a
`TypeError`; the check still returns false rather than propagating it. -/
theorem calculate_usable_status_total_witness :
    calculate_usable_status [("batchTTL", JsonVal.jnull)] = Except.ok false :=
  (calculate_usable_status_total [("batchTTL", JsonVal.jnull)]).2
    PyErr.typeError rfl

/-! ## Claims C2, C5, C6, C10: the processing pipeline -/

/-- Inversion of one loop iteration of `get_all_stamps_processed`: when a
stamp is emitted, `int()` succeeded on its `batchTTL`, the usability check
returned a boolean, and the emitted record is exactly the dictionary built at
lines 229-242. -/
theorem process_stamp_ok_some (now : Nat) (stamp : PyDict) (p : ProcessedStamp)
    (h : process_stamp now (JsonVal.jobj stamp) = Except.ok (some p)) :
    ∃ t usable,
      pyInt (getD stamp "batchTTL" (JsonVal.jint 0)) = Except.ok t ∧
      calculate_usable_status stamp = Except.ok usable ∧
      p = { batchID := getD stamp "batchID" JsonVal.jnull
            utilization := getD stamp "utilization" JsonVal.jnull
            usable := usable
            label := getD stamp "label" JsonVal.jnull
            depth := getD stamp "depth" JsonVal.jnull
            amount := pyStr (getD stamp "amount" (JsonVal.jstr ""))
            bucketDepth := getD stamp "bucketDepth" JsonVal.jnull
            blockNumber := getD stamp "blockNumber" JsonVal.jnull
            immutableFlag := getD stamp "immutableFlag" JsonVal.jnull
            batchTTL := if t < 0 then 0 else t
            existsFlag := getD stamp "exists" (JsonVal.jbool true)
            expectedExpiration := formatUtc (now + (if t < 0 then 0 else t).toNat) } := by
  have htry : process_stamp_try now stamp = Except.ok (some p) := by
    simp only [process_stamp] at h
    cases htry : process_stamp_try now stamp with
    | error e =>
      rw [htry] at h
      cases e <;> simp at h
    | ok r =>
      rw [htry] at h
      simp at h
      rw [h]
  unfold process_stamp_try at htry
  cases hid : truthy (getD stamp "batchID" JsonVal.jnull) with
  | false => simp [hid] at htry
  | true =>
    simp only [hid, Bool.not_true, Bool.false_eq_true, if_false] at htry
    cases hpy : pyInt (getD stamp "batchTTL" (JsonVal.jint 0)) with
    | error e => simp [hpy] at htry
    | ok t =>
      simp only [hpy] at htry
      cases hus : calculate_usable_status stamp with
      | error e => simp [hus] at htry
      | ok u =>
        simp only [hus] at htry
        refine ⟨t, u, rfl, rfl, ?_⟩
        injection htry with h1
        injection h1 with h2
        exact h2.symm

/-- C2: the expiration computed for each processed stamp equals the call-time
UTC clock plus its `batchTTL` clamped to ≥ 0, formatted as `YYYY-MM-DD-HH-MM`
in UTC (`computeExpiration`, a pure function of clock and TTL, hence
deterministic); concretely, `batchTTL = 3600` at 2024-01-01T00:00:00Z (POSIX
1704067200) gives "2024-01-01-01-00". -/
theorem processed_expiration_spec (now : Nat) (stamp : PyDict) (p : ProcessedStamp)
    (h : process_stamp now (JsonVal.jobj stamp) = Except.ok (some p)) :
    (∃ t, pyInt (getD stamp "batchTTL" (JsonVal.jint 0)) = Except.ok t ∧
      p.expectedExpiration = computeExpiration now t) ∧
    computeExpiration 1704067200 3600 = "2024-01-01-01-00" := by
  obtain ⟨t, u, hpy, hus, hp⟩ := process_stamp_ok_some now stamp p h
  refine ⟨⟨t, hpy, ?_⟩, rfl⟩
  rw [hp]
  rfl

/-- C5: every stamp emitted by `get_all_stamps_processed` surfaces `amount`
as a string (`pyStr` of the raw value, empty-string default) and passes every
non-computed field through unchanged, absent optional fields becoming `None`
rather than zero — except `batchTTL`, clamped to 0, and `exists`, defaulting
to true when absent. -/
theorem processed_fields_passthrough (now : Nat) (stamp : PyDict) (p : ProcessedStamp)
    (h : process_stamp now (JsonVal.jobj stamp) = Except.ok (some p)) :
    p.batchID = getD stamp "batchID" JsonVal.jnull ∧
    p.utilization = getD stamp "utilization" JsonVal.jnull ∧
    p.label = getD stamp "label" JsonVal.jnull ∧
    p.depth = getD stamp "depth" JsonVal.jnull ∧
    p.bucketDepth = getD stamp "bucketDepth" JsonVal.jnull ∧
    p.blockNumber = getD stamp "blockNumber" JsonVal.jnull ∧
    p.immutableFlag = getD stamp "immutableFlag" JsonVal.jnull ∧
    p.existsFlag = getD stamp "exists" (JsonVal.jbool true) ∧
    p.amount = pyStr (getD stamp "amount" (JsonVal.jstr "")) ∧
    (∃ t, pyInt (getD stamp "batchTTL" (JsonVal.jint 0)) = Except.ok t ∧
      p.batchTTL = if t < 0 then 0 else t) := by
  obtain ⟨t, u, hpy, hus, hp⟩ := process_stamp_ok_some now stamp p h
  subst hp
  exact ⟨rfl, rfl, rfl, rfl, rfl, rfl, rfl, rfl, rfl, t, hpy, rfl⟩

/-- Unfolding equation for one step of the processing loop. -/
theorem process_loop_cons_eq (now : Nat) (v : JsonVal) (rest : List JsonVal) :
    process_loop now (v :: rest) =
      match process_stamp now v with
      | Except.error e => Except.error e
      | Except.ok r =>
        match process_loop now rest with
        | Except.error e => Except.error e
        | Except.ok tail =>
          Except.ok (match r with
            | some p => p :: tail
            | none => tail) := rfl

/-- C6: a stamp whose `batchID` is missing is skipped by
`get_all_stamps_processed` — the output over any surrounding list equals the
output with that stamp removed, so the remaining stamps are still processed
and no partial record is surfaced. -/
theorem missing_batchID_skipped (now : Nat) (pre post : List JsonVal) (stamp : PyDict)
    (hmiss : plookup stamp "batchID" = none) :
    process_loop now (pre ++ JsonVal.jobj stamp :: post) =
      process_loop now (pre ++ post) := by
  have hskip : process_stamp now (JsonVal.jobj stamp) = Except.ok none := by
    simp only [process_stamp]
    unfold process_stamp_try
    simp [getD, hmiss, truthy]
  induction pre with
  | nil =>
    simp only [List.nil_append]
    rw [process_loop_cons_eq, hskip]
    cases hrest : process_loop now post <;> rfl
  | cons v rest ih =>
    simp only [List.cons_append]
    rw [process_loop_cons_eq, process_loop_cons_eq, ih]

/-- If both depth comparisons of the usability check returned false, the
depth value is an integer within [16, 32]. -/
theorem depth_range_of_checks (v : JsonVal)
    (hlt : pyLtInt v 16 = Except.ok false) (hgt : pyGtInt v 32 = Except.ok false) :
    ∃ n, v = JsonVal.jint n ∧ 16 ≤ n ∧ n ≤ 32 := by
  cases v with
  | jint n =>
    simp only [pyLtInt, Except.ok.injEq, decide_eq_false_iff_not, not_lt] at hlt
    simp only [pyGtInt, Except.ok.injEq, decide_eq_false_iff_not, not_lt] at hgt
    exact ⟨n, rfl, hlt, hgt⟩
  | jbool b => cases b <;> simp [pyLtInt] at hlt
  | jnull => simp [pyLtInt] at hlt
  | jstr s => simp [pyLtInt] at hlt
  | jarr xs => simp [pyLtInt] at hlt
  | jobj fs => simp [pyLtInt] at hlt

/-- Inversion of a successful usability check: `exists` was truthy,
`batchTTL` converted to an integer of at least 60, and `depth` is an integer
within [16, 32]. -/
theorem calculate_usable_true_elim (stamp : PyDict)
    (h : calculate_usable_status stamp = Except.ok true) :
    truthy (getD stamp "exists" (JsonVal.jbool true)) = true ∧
    (∃ t, pyInt (getD stamp "batchTTL" (JsonVal.jint 0)) = Except.ok t ∧ 60 ≤ t) ∧
    (∃ n, getD stamp "depth" (JsonVal.jint 0) = JsonVal.jint n ∧ 16 ≤ n ∧ n ≤ 32) := by
  have htry : calculate_usable_status_try stamp = Except.ok true := by
    rcases calculate_usable_status_try_cases stamp with ⟨b, hb⟩ | hb | hb
    · have hcalc : calculate_usable_status stamp = Except.ok b := by
        simp [calculate_usable_status, hb]
      have hbt := hcalc.symm.trans h
      injection hbt with hbt
      rw [hb, hbt]
    · have hcalc : calculate_usable_status stamp = Except.ok false := by
        simp [calculate_usable_status, hb]
      simp [hcalc] at h
    · have hcalc : calculate_usable_status stamp = Except.ok false := by
        simp [calculate_usable_status, hb]
      simp [hcalc] at h
  unfold calculate_usable_status_try at htry
  split at htry
  case isTrue => simp at htry
  case isFalse hex' =>
    have hex : truthy (getD stamp "exists" (JsonVal.jbool true)) = true := by
      revert hex'
      cases truthy (getD stamp "exists" (JsonVal.jbool true)) <;> simp
    cases hpy : pyInt (getD stamp "batchTTL" (JsonVal.jint 0)) with
    | error e => rw [hpy] at htry; simp at htry
    | ok t =>
      simp only [hpy] at htry
      split at htry
      case isTrue => simp at htry
      case isFalse h0 =>
        split at htry
        case isTrue =>
          split at htry
          case isTrue => simp at htry
          case isFalse hmin =>
            have h60 : (60 : Int) ≤ t := by omega
            cases hlt : pyLtInt (getD stamp "depth" (JsonVal.jint 0)) 16 with
            | error e => rw [hlt] at htry; simp at htry
            | ok b =>
              rw [hlt] at htry
              cases b with
              | true => simp at htry
              | false =>
                cases hgt : pyGtInt (getD stamp "depth" (JsonVal.jint 0)) 32 with
                | error e => rw [hgt] at htry; simp at htry
                | ok c =>
                  rw [hgt] at htry
                  cases c with
                  | true => simp at htry
                  | false => exact ⟨hex, ⟨t, rfl, h60⟩, depth_range_of_checks _ hlt hgt⟩
        case isFalse =>
          split at htry
          case isTrue => simp at htry
          case isFalse hmin =>
            have h60 : (60 : Int) ≤ t := by omega
            cases hlt : pyLtInt (getD stamp "depth" (JsonVal.jint 0)) 16 with
            | error e => rw [hlt] at htry; simp at htry
            | ok b =>
              rw [hlt] at htry
              cases b with
              | true => simp at htry
              | false =>
                cases hgt : pyGtInt (getD stamp "depth" (JsonVal.jint 0)) 32 with
                | error e => rw [hgt] at htry; simp at htry
                | ok c =>
                  rw [hgt] at htry
                  cases c with
                  | true => simp at htry
                  | false => exact ⟨hex, ⟨t, rfl, h60⟩, depth_range_of_checks _ hlt hgt⟩

/-- C10: every processed stamp emitted with `usable = true` has an emitted
integer `batchTTL` of at least 60, an emitted integer `depth` within
[16, 32], and an emitted `exists` value that is not falsy — the computed and
passed-through fields of each output record are mutually consistent. -/
theorem processed_usable_consistent (now : Nat) (stamp : PyDict) (p : ProcessedStamp)
    (h : process_stamp now (JsonVal.jobj stamp) = Except.ok (some p))
    (hu : p.usable = true) :
    (60 ≤ p.batchTTL) ∧
    (∃ n, p.depth = JsonVal.jint n ∧ 16 ≤ n ∧ n ≤ 32) ∧
    truthy p.existsFlag = true := by
  obtain ⟨t, u, hpy, hus, hp⟩ := process_stamp_ok_some now stamp p h
  subst hp
  have hu' : u = true := hu
  rw [hu'] at hus
  obtain ⟨hex, ⟨t2, hpy2, h60⟩, ⟨n, hdep, h16, h32⟩⟩ := calculate_usable_true_elim stamp hus
  have ht2 : t2 = t := by
    rw [hpy] at hpy2
    injection hpy2 with h'
    exact h'.symm
  subst ht2
  have hdep' : getD stamp "depth" JsonVal.jnull = JsonVal.jint n := by
    cases hl : plookup stamp "depth" with
    | none =>
      rw [getD, hl] at hdep
      injection hdep with h'
      omega
    | some v =>
      rw [getD, hl] at hdep
      rw [getD, hl]
      exact hdep
  refine ⟨?_, ⟨n, hdep', h16, h32⟩, hex⟩
  show (60 : Int) ≤ if t2 < 0 then 0 else t2
  rw [if_neg (by omega)]
  exact h60

/-! ## Claims C4, C7, C8, C9 and concrete witnesses -/

/-- C4: `get_all_stamps` accepts either a top-level object with a `batches`
list or a bare array, both yielding the same list (hence identical processed
output), while any other top-level shape — a non-list `batches` field, a dict
without `batches`, or a non-container value — yields the empty list rather
than an error. -/
theorem get_all_stamps_shapes (nowEpoch : Nat) (L : List JsonVal)
    (fields : PyDict) (v : JsonVal) :
    (plookup fields "batches" = some (JsonVal.jarr L) →
      get_all_stamps (JsonVal.jobj fields) = L) ∧
    get_all_stamps (JsonVal.jarr L) = L ∧
    get_all_stamps_processed (JsonVal.jobj [("batches", JsonVal.jarr L)]) nowEpoch =
      get_all_stamps_processed (JsonVal.jarr L) nowEpoch ∧
    (plookup fields "batches" = some v → (∀ M, v ≠ JsonVal.jarr M) →
      get_all_stamps (JsonVal.jobj fields) = []) ∧
    (plookup fields "batches" = none → get_all_stamps (JsonVal.jobj fields) = []) ∧
    get_all_stamps JsonVal.jnull = [] ∧
    (∀ b, get_all_stamps (JsonVal.jbool b) = []) ∧
    (∀ n, get_all_stamps (JsonVal.jint n) = []) ∧
    (∀ s, get_all_stamps (JsonVal.jstr s) = []) := by
  refine ⟨?_, rfl, rfl, ?_, ?_, rfl, fun b => rfl, fun n => rfl, fun s => rfl⟩
  · intro h
    simp [get_all_stamps, h]
  · intro h hv
    cases v with
    | jarr M => exact absurd rfl (hv M)
    | jnull => simp [get_all_stamps, h]
    | jbool b => simp [get_all_stamps, h]
    | jint n => simp [get_all_stamps, h]
    | jstr s => simp [get_all_stamps, h]
    | jobj g => simp [get_all_stamps, h]
  · intro h
    simp [get_all_stamps, h]

/-- C7: `download_data_from_swarm` returns the raw response bytes on
success; a 404 from the node raises the distinct `FileNotFoundError` kind,
different from the `RequestException` kind raised for any other HTTP error
status or for a connection failure. -/
theorem download_distinguishes_not_found (status : Nat) (body : List Nat) :
    download_data_from_swarm (HttpOutcome.response 404 body) = DownloadResult.notFound ∧
    (400 ≤ status → status < 600 → status ≠ 404 →
      download_data_from_swarm (HttpOutcome.response status body) =
        DownloadResult.requestError) ∧
    download_data_from_swarm HttpOutcome.connError = DownloadResult.requestError ∧
    (status < 400 →
      download_data_from_swarm (HttpOutcome.response status body) =
        DownloadResult.ok body) ∧
    DownloadResult.notFound ≠ DownloadResult.requestError := by
  refine ⟨rfl, ?_, rfl, ?_, by decide⟩
  · intro h4 h6 hne
    simp [download_data_from_swarm, hne, h4]
  · intro h
    have h1 : status ≠ 404 := by omega
    have h2 : ¬ 400 ≤ status := by omega
    simp [download_data_from_swarm, h1, h2]

/-- C8: `extend_postage_stamp` returns the `batchID` field of the node's
response when present, and falls back to the input `stamp_id` when the
response omits it, rather than failing. -/
theorem extend_batchID_fallback (stamp_id : String) (fields : PyDict) (v : JsonVal) :
    (plookup fields "batchID" = some v →
      extend_postage_stamp stamp_id (JsonVal.jobj fields) = Except.ok v) ∧
    (plookup fields "batchID" = none →
      extend_postage_stamp stamp_id (JsonVal.jobj fields) =
        Except.ok (JsonVal.jstr stamp_id)) := by
  constructor <;> intro h <;> simp [extend_postage_stamp, getD, h]

/-- C9: for every behaviour of the underlying wallet-info fetch — a normal
return of any JSON value or any raised failure — `GET /wallet` either returns
a `{walletAddress, bzzBalance?}` response or surfaces HTTP 500; every raised
failure (transport, validation, or unexpected) yields 500. -/
theorem get_wallet_shape_or_500 (e : PyErr) (fields : PyDict)
    (addr bal : String) :
    get_wallet (FetchOutcome.raise e) = WalletEndpointResult.http500 ∧
    (plookup fields "walletAddress" = some (JsonVal.jstr addr) →
      plookup fields "bzzBalance" = none →
      get_wallet (FetchOutcome.ret (JsonVal.jobj fields)) =
        WalletEndpointResult.ok addr none) ∧
    (plookup fields "walletAddress" = some (JsonVal.jstr addr) →
      plookup fields "bzzBalance" = some (JsonVal.jstr bal) →
      get_wallet (FetchOutcome.ret (JsonVal.jobj fields)) =
        WalletEndpointResult.ok addr (some bal)) ∧
    (plookup fields "walletAddress" = none →
      get_wallet (FetchOutcome.ret (JsonVal.jobj fields)) =
        WalletEndpointResult.http500) ∧
    (∀ res, get_wallet res = WalletEndpointResult.http500 ∨
      ∃ a b, get_wallet res = WalletEndpointResult.ok a b) := by
  refine ⟨rfl, ?_, ?_, ?_, ?_⟩
  · intro hw hb
    simp [get_wallet, hw, getD, hb]
  · intro hw hb
    simp [get_wallet, hw, getD, hb]
  · intro hw
    simp [get_wallet, hw]
  · intro res
    cases res with
    | raise e' => exact Or.inl rfl
    | ret v =>
      cases v with
      | jobj f =>
        cases hw : plookup f "walletAddress" with
        | none => exact Or.inl (by simp [get_wallet, hw])
        | some w =>
          cases w with
          | jstr a =>
            cases hb : getD f "bzzBalance" JsonVal.jnull with
            | jnull => exact Or.inr ⟨a, none, by simp [get_wallet, hw, hb]⟩
            | jstr b => exact Or.inr ⟨a, some b, by simp [get_wallet, hw, hb]⟩
            | jbool c => exact Or.inl (by simp [get_wallet, hw, hb])
            | jint n => exact Or.inl (by simp [get_wallet, hw, hb])
            | jarr xs => exact Or.inl (by simp [get_wallet, hw, hb])
            | jobj g => exact Or.inl (by simp [get_wallet, hw, hb])
          | jnull => exact Or.inl (by simp [get_wallet, hw])
          | jbool c => exact Or.inl (by simp [get_wallet, hw])
          | jint n => exact Or.inl (by simp [get_wallet, hw])
          | jarr xs => exact Or.inl (by simp [get_wallet, hw])
          | jobj g => exact Or.inl (by simp [get_wallet, hw])
      | jnull => exact Or.inl rfl
      | jbool c => exact Or.inl rfl
      | jint n => exact Or.inl rfl
      | jstr s => exact Or.inl rfl
      | jarr xs => exact Or.inl rfl

/-- A well-formed raw stamp used by the concrete witnesses. -/
def stampW : PyDict :=
  [("batchID", JsonVal.jstr "x"), ("batchTTL", JsonVal.jint 3600),
   ("depth", JsonVal.jint 16)]

/-- The record `get_all_stamps_processed` emits for `stampW` at clock
1704067200 (2024-01-01T00:00:00Z). -/
def processedW : ProcessedStamp :=
  { batchID := JsonVal.jstr "x"
    utilization := JsonVal.jnull
    usable := true
    label := JsonVal.jnull
    depth := JsonVal.jint 16
    amount := ""
    bucketDepth := JsonVal.jnull
    blockNumber := JsonVal.jnull
    immutableFlag := JsonVal.jnull
    batchTTL := 3600
    existsFlag := JsonVal.jbool true
    expectedExpiration := "2024-01-01-01-00" }

/-- C2 (witness): concrete instance at `stampW`, clock 1704067200. -/
theorem processed_expiration_spec_witness :
    (∃ t, pyInt (getD stampW "batchTTL" (JsonVal.jint 0)) = Except.ok t ∧
      processedW.expectedExpiration = computeExpiration 1704067200 t) ∧
    computeExpiration 1704067200 3600 = "2024-01-01-01-00" :=
  processed_expiration_spec 1704067200 stampW processedW rfl

/-- C5 (witness): concrete instance at `stampW`, clock 1704067200. -/
theorem processed_fields_passthrough_witness :
    processedW.batchID = getD stampW "batchID" JsonVal.jnull ∧
    processedW.utilization = getD stampW "utilization" JsonVal.jnull ∧
    processedW.label = getD stampW "label" JsonVal.jnull ∧
    processedW.depth = getD stampW "depth" JsonVal.jnull ∧
    processedW.bucketDepth = getD stampW "bucketDepth" JsonVal.jnull ∧
    processedW.blockNumber = getD stampW "blockNumber" JsonVal.jnull ∧
    processedW.immutableFlag = getD stampW "immutableFlag" JsonVal.jnull ∧
    processedW.existsFlag = getD stampW "exists" (JsonVal.jbool true) ∧
    processedW.amount = pyStr (getD stampW "amount" (JsonVal.jstr "")) ∧
    (∃ t, pyInt (getD stampW "batchTTL" (JsonVal.jint 0)) = Except.ok t ∧
      processedW.batchTTL = if t < 0 then 0 else t) :=
  processed_fields_passthrough 1704067200 stampW processedW rfl

/-- C6 (witness): a stamp with only a `label` is dropped; the valid stamp
after it is still processed. -/
theorem missing_batchID_skipped_witness :
    process_loop 0 [JsonVal.jobj [("label", JsonVal.jstr "l")], JsonVal.jobj stampW] =
      process_loop 0 [JsonVal.jobj stampW] :=
  missing_batchID_skipped 0 [] [JsonVal.jobj stampW] [("label", JsonVal.jstr "l")] rfl

/-- C10 (witness): concrete instance at `stampW`, whose processed record is
usable. -/
theorem processed_usable_consistent_witness :
    (60 ≤ processedW.batchTTL) ∧
    (∃ n, processedW.depth = JsonVal.jint n ∧ 16 ≤ n ∧ n ≤ 32) ∧
    truthy processedW.existsFlag = true :=
  processed_usable_consistent 1704067200 stampW processedW rfl rfl

/-- C4 (witness): concrete object-shaped responses, one with a list
`batches` and one with `batches = null`. -/
theorem get_all_stamps_shapes_witness :
    get_all_stamps (JsonVal.jobj [("batches", JsonVal.jarr [JsonVal.jobj stampW])]) =
      [JsonVal.jobj stampW] ∧
    get_all_stamps (JsonVal.jobj [("batches", JsonVal.jnull)]) = [] :=
  ⟨(get_all_stamps_shapes 0 [JsonVal.jobj stampW]
      [("batches", JsonVal.jarr [JsonVal.jobj stampW])] JsonVal.jnull).1 rfl,
   (get_all_stamps_shapes 0 [] [("batches", JsonVal.jnull)] JsonVal.jnull).2.2.2.1 rfl
     (fun _ h => JsonVal.noConfusion h)⟩

/-- C7 (witness): a 500 response maps to the transport-error kind and a 200
response returns its bytes. -/
theorem download_distinguishes_not_found_witness :
    download_data_from_swarm (HttpOutcome.response 500 []) =
      DownloadResult.requestError ∧
    download_data_from_swarm (HttpOutcome.response 200 [7]) =
      DownloadResult.ok [7] :=
  ⟨(download_distinguishes_not_found 500 []).2.1 (by decide) (by decide) (by decide),
   (download_distinguishes_not_found 200 [7]).2.2.2.1 (by decide)⟩

/-- C8 (witness): a response carrying `batchID` returns it; an empty
response falls back to the input id. -/
theorem extend_batchID_fallback_witness :
    extend_postage_stamp "abc" (JsonVal.jobj [("batchID", JsonVal.jstr "b")]) =
      Except.ok (JsonVal.jstr "b") ∧
    extend_postage_stamp "abc" (JsonVal.jobj []) = Except.ok (JsonVal.jstr "abc") :=
  ⟨(extend_batchID_fallback "abc" [("batchID", JsonVal.jstr "b")]
      (JsonVal.jstr "b")).1 rfl,
   (extend_batchID_fallback "abc" [] JsonVal.jnull).2 rfl⟩

/-- C9 (witness): a well-formed fetch result yields the response shape; a
raised transport failure yields 500. -/
theorem get_wallet_shape_or_500_witness :
    get_wallet (FetchOutcome.ret (JsonVal.jobj [("walletAddress", JsonVal.jstr "0xabc")])) =
      WalletEndpointResult.ok "0xabc" none ∧
    get_wallet (FetchOutcome.raise PyErr.requestError) = WalletEndpointResult.http500 :=
  ⟨(get_wallet_shape_or_500 PyErr.requestError
      [("walletAddress", JsonVal.jstr "0xabc")] "0xabc" "").2.1 rfl rfl,
   (get_wallet_shape_or_500 PyErr.requestError [] "" "").1⟩
